import Mathlib

/-
Verification of the Item CRUD service (src/app/schemas.py, src/app/main.py).
The store items_db is modelled as a map from integer keys to Items; each
request handler is a pure function from the current store and its input to
an HTTP-style response paired with the successor store.
-/

namespace ItemApi

/-- Item record declared in src/app/schemas.py: a required integer id, a
required name and an optional description. -/
structure Item where
  id : Int
  name : String
  description : Option String
deriving DecidableEq, Repr

/-- Blank-name check of the name field validator in src/app/schemas.py:
the Python test rejects the name exactly when its stripped form is empty,
that is when every character of the name is whitespace; the name passes
when some character is not whitespace. -/
def name_not_blank (v : String) : Bool :=
  v.data.any (fun c => !c.isWhitespace)

/-- Conjunction of the three field constraints declared on Item in
src/app/schemas.py: id strictly positive, name length between 3 and 50 with
at least one non-whitespace character, description at most 200 characters
when present. -/
def itemValid (it : Item) : Bool :=
  decide (0 < it.id) && decide (3 ≤ it.name.length) &&
    decide (it.name.length ≤ 50) && name_not_blank it.name &&
    (match it.description with
     | none => true
     | some d => decide (d.length ≤ 200))

/-- Decode-time validation performed by the framework before a handler
runs: the Field constraints of src/app/schemas.py are applied in
declaration order, then the blank-name validator; the typed Item is
produced only when every rule passes. -/
def decode_item (id : Int) (name : String) (descr : Option String) :
    Option Item :=
  if id ≤ 0 then none
  else if name.length < 3 then none
  else if 50 < name.length then none
  else if !(name_not_blank name) then none
  else
    match descr with
    | some d => if 200 < d.length then none else some ⟨id, name, some d⟩
    | none => some ⟨id, name, none⟩

/-- The in-memory store items_db of src/app/main.py: a finite-support map
from integer keys to Items, represented as a function to Option. -/
def Store := Int → Option Item

/-- The store at process start: empty. -/
def emptyStore : Store := fun _ => none

/-- Response bodies produced by the handlers: an Item, a detail string
(errors and the deletion confirmation), or the welcome message. -/
inductive Body where
  | item (it : Item)
  | detail (s : String)
  | message (s : String)
deriving DecidableEq, Repr

/-- An HTTP-style result: status code plus body. -/
structure Response where
  status : Nat
  body : Body
deriving DecidableEq, Repr

/-- Handler create_item of src/app/main.py (POST /items/): 400 when the id
is already a key, otherwise the item is stored under its own id and
returned with status 201. -/
def create_item (db : Store) (item : Item) : Response × Store :=
  if (db item.id).isSome then
    ({ status := 400, body := .detail "Item already exists with this ID" }, db)
  else
    ({ status := 201, body := .item item },
     fun k => if k = item.id then some item else db k)

/-- Handler get_item of src/app/main.py (GET /items/item_id): 404 when the
id is not a key, otherwise the stored item with status 200. -/
def get_item (db : Store) (item_id : Int) : Response × Store :=
  match db item_id with
  | none => ({ status := 404, body := .detail "Item not found" }, db)
  | some it => ({ status := 200, body := .item it }, db)

/-- Handler update_item of src/app/main.py (PUT /items/item_id): 404 when
the id is not a key, otherwise the body item replaces the entry at the
path key and is returned with status 200. -/
def update_item (db : Store) (item_id : Int) (updated_item : Item) :
    Response × Store :=
  if (db item_id).isNone then
    ({ status := 404, body := .detail "Item not found" }, db)
  else
    ({ status := 200, body := .item updated_item },
     fun k => if k = item_id then some updated_item else db k)

/-- Handler delete_item of src/app/main.py (DELETE /items/item_id): 404
when the id is not a key, otherwise the key is removed and a confirmation
string with the interpolated id is returned with status 200. -/
def delete_item (db : Store) (item_id : Int) : Response × Store :=
  if (db item_id).isNone then
    ({ status := 404, body := .detail "Item not found" }, db)
  else
    ({ status := 200,
       body := .detail ("Item " ++ toString item_id ++ " deleted successfully") },
     fun k => if k = item_id then none else db k)

/-- Handler read_root of src/app/main.py (GET /): the welcome message. -/
def read_root (db : Store) : Response × Store :=
  ({ status := 200,
     body := .message "Welcome to the Item API. Visit /docs for Swagger UI." }, db)

/-- Full POST /items/ endpoint: framework decoding of the body followed by
create_item; a validation failure is answered with a 422-class response
and never reaches the store. -/
def post_items (db : Store) (id : Int) (name : String)
    (descr : Option String) : Response × Store :=
  match decode_item id name descr with
  | none => ({ status := 422, body := .detail "validation error" }, db)
  | some it => create_item db it

/-- Full PUT /items/item_id endpoint: framework decoding of the body
followed by update_item; a validation failure is answered with a 422-class
response and never reaches the store. -/
def put_items (db : Store) (item_id : Int) (id : Int) (name : String)
    (descr : Option String) : Response × Store :=
  match decode_item id name descr with
  | none => ({ status := 422, body := .detail "validation error" }, db)
  | some it => update_item db item_id it

/-- One inbound request against the service surface. -/
inductive Cmd where
  | post (id : Int) (name : String) (descr : Option String)
  | get (item_id : Int)
  | put (item_id : Int) (id : Int) (name : String) (descr : Option String)
  | del (item_id : Int)
  | root
deriving DecidableEq, Repr

/-- Successor store after serving one request. -/
def step (db : Store) (c : Cmd) : Store :=
  match c with
  | .post id name descr => (post_items db id name descr).2
  | .get item_id => (get_item db item_id).2
  | .put item_id id name descr => (put_items db item_id id name descr).2
  | .del item_id => (delete_item db item_id).2
  | .root => (read_root db).2

/-- Store reached from the empty store by a sequence of requests. -/
def run (cs : List Cmd) : Store := cs.foldl step emptyStore

/-- Sample valid item used to instantiate hypotheses of the theorems. -/
def itemA : Item := ⟨1, "Item1", some "A test item"⟩

/-- Second sample valid item, sharing the id of itemA. -/
def itemB : Item := ⟨1, "UpdatedItem", some "Updated description"⟩

/-- Sample valid item whose id differs from its future map key. -/
def itemC : Item := ⟨7, "Renamed", none⟩

/-- Singleton store holding itemA under key 1. -/
def store1 : Store := fun k => if k = 1 then some itemA else none

/-- Claim C1: creating a valid Item whose id is not yet a key and then
getting that id returns the very Item, status 200, with id, name and
description unchanged. -/
theorem c1_create_then_get (db : Store) (A : Item)
    (hv : itemValid A = true) (h : db A.id = none) :
    (get_item (create_item db A).2 A.id).1 =
      { status := 200, body := .item A } := by
  simp [create_item, get_item, h]

/-- Witness for C1 at the concrete item itemA against the empty store. -/
theorem c1_witness :
    itemValid itemA = true ∧ emptyStore itemA.id = none ∧
      (get_item (create_item emptyStore itemA).2 itemA.id).1 =
        { status := 200, body := .item itemA } :=
  ⟨by decide, rfl, c1_create_then_get emptyStore itemA (by decide) rfl⟩

/-- Claim C2: creating a valid Item whose id is already a key fails with
status 400 and the duplicate-id detail, and the store is unchanged at
every key, in particular the key still holds the previously stored
value. -/
theorem c2_duplicate_create (db : Store) (it old : Item)
    (hv : itemValid it = true) (h : db it.id = some old) :
    (create_item db it).1 =
        { status := 400, body := .detail "Item already exists with this ID" } ∧
      (create_item db it).2 it.id = some old ∧
      ∀ k, (create_item db it).2 k = db k := by
  refine ⟨by simp [create_item, h], by simp [create_item, h], fun k => ?_⟩
  simp [create_item, h]

/-- Witness for C2: itemB collides with the id of the stored itemA. -/
theorem c2_witness :
    itemValid itemB = true ∧ store1 itemB.id = some itemA ∧
      ((create_item store1 itemB).1 =
          { status := 400, body := .detail "Item already exists with this ID" } ∧
        (create_item store1 itemB).2 itemB.id = some itemA ∧
        ∀ k, (create_item store1 itemB).2 k = store1 k) :=
  ⟨by decide, rfl, c2_duplicate_create store1 itemB itemA (by decide) rfl⟩

/-- Claim C3: updating an existing key with a valid Item makes the update
handler return that Item with status 200, and a subsequent get on the
same key returns exactly that Item, with no field merged from the old
value. -/
theorem c3_update_replaces (db : Store) (id : Int) (it old : Item)
    (hv : itemValid it = true) (h : db id = some old) :
    (update_item db id it).1 = { status := 200, body := .item it } ∧
      (get_item (update_item db id it).2 id).1 =
        { status := 200, body := .item it } := by
  constructor
  · simp [update_item, h]
  · simp [update_item, get_item, h]

/-- Witness for C3: replacing itemA by itemB at key 1. -/
theorem c3_witness :
    itemValid itemB = true ∧ store1 1 = some itemA ∧
      ((update_item store1 1 itemB).1 = { status := 200, body := .item itemB } ∧
        (get_item (update_item store1 1 itemB).2 1).1 =
          { status := 200, body := .item itemB }) :=
  ⟨by decide, rfl, c3_update_replaces store1 1 itemB itemA (by decide) rfl⟩

/-- Claim C4: the update handler stores the body under the path key
without reconciling id fields: when the body id differs from the path
key, the path key now maps to the body Item, whose own id field differs
from this key, and the entry at the body id is untouched. -/
theorem c4_no_rekey (db : Store) (id : Int) (it old : Item)
    (hv : itemValid it = true) (h : db id = some old) (hne : it.id ≠ id) :
    (update_item db id it).2 id = some it ∧
      (∀ x, (update_item db id it).2 id = some x → x.id ≠ id) ∧
      (update_item db id it).2 it.id = db it.id := by
  refine ⟨by simp [update_item, h], ?_, ?_⟩
  · intro x hx
    simp [update_item, h] at hx
    exact hx ▸ hne
  · simp [update_item, h, hne]

/-- Witness for C4: itemC with id 7 stored under path key 1. -/
theorem c4_witness :
    itemValid itemC = true ∧ store1 1 = some itemA ∧ itemC.id ≠ 1 ∧
      ((update_item store1 1 itemC).2 1 = some itemC ∧
        (∀ x, (update_item store1 1 itemC).2 1 = some x → x.id ≠ 1) ∧
        (update_item store1 1 itemC).2 itemC.id = store1 itemC.id) :=
  ⟨by decide, rfl, by decide,
    c4_no_rekey store1 1 itemC itemA (by decide) rfl (by decide)⟩

/-- Claim C5: getting, updating or deleting an id that is not a key fails
with status 404 and the not-found detail, and leaves the store unchanged. -/
theorem c5_not_found (db : Store) (id : Int) (it : Item)
    (h : db id = none) :
    (get_item db id).1 = { status := 404, body := .detail "Item not found" } ∧
      (get_item db id).2 = db ∧
      (update_item db id it).1 =
        { status := 404, body := .detail "Item not found" } ∧
      (update_item db id it).2 = db ∧
      (delete_item db id).1 =
        { status := 404, body := .detail "Item not found" } ∧
      (delete_item db id).2 = db := by
  refine ⟨?_, ?_, ?_, ?_, ?_, ?_⟩ <;>
    simp [get_item, update_item, delete_item, h]

/-- Witness for C5 at key 999 of the singleton store. -/
theorem c5_witness :
    store1 999 = none ∧
      ((get_item store1 999).1 =
          { status := 404, body := .detail "Item not found" } ∧
        (get_item store1 999).2 = store1 ∧
        (update_item store1 999 itemB).1 =
          { status := 404, body := .detail "Item not found" } ∧
        (update_item store1 999 itemB).2 = store1 ∧
        (delete_item store1 999).1 =
          { status := 404, body := .detail "Item not found" } ∧
        (delete_item store1 999).2 = store1) :=
  ⟨rfl, c5_not_found store1 999 itemB rfl⟩

/-- Claim C6: deleting an existing key succeeds with status 200 and the
confirmation detail interpolating the numeric id; afterwards the key is
absent and a subsequent get or delete on it fails with 404. -/
theorem c6_delete (db : Store) (id : Int) (old : Item)
    (h : db id = some old) :
    (delete_item db id).1 =
        { status := 200,
          body := .detail ("Item " ++ toString id ++ " deleted successfully") } ∧
      (delete_item db id).2 id = none ∧
      (get_item (delete_item db id).2 id).1 =
        { status := 404, body := .detail "Item not found" } ∧
      (delete_item (delete_item db id).2 id).1 =
        { status := 404, body := .detail "Item not found" } := by
  refine ⟨?_, ?_, ?_, ?_⟩ <;>
    simp [delete_item, get_item, h]

/-- Witness for C6: deleting key 1 of the singleton store. -/
theorem c6_witness :
    store1 1 = some itemA ∧
      ((delete_item store1 1).1 =
          { status := 200,
            body := .detail ("Item " ++ toString (1 : Int) ++ " deleted successfully") } ∧
        (delete_item store1 1).2 1 = none ∧
        (get_item (delete_item store1 1).2 1).1 =
          { status := 404, body := .detail "Item not found" } ∧
        (delete_item (delete_item store1 1).2 1).1 =
          { status := 404, body := .detail "Item not found" }) :=
  ⟨rfl, c6_delete store1 1 itemA rfl⟩

/-- Claim C10: create is not idempotent: a create whose id is already a
key fails with 400 even when the body is field-for-field the stored
value, and resubmitting a create request right after its success is
rejected with 400. -/
theorem c10_not_idempotent :
    (∀ db : Store, ∀ it : Item, db it.id = some it →
        (create_item db it).1 =
          { status := 400, body := .detail "Item already exists with this ID" }) ∧
      (∀ db : Store, ∀ it : Item, db it.id = none →
        (create_item (create_item db it).2 it).1 =
          { status := 400, body := .detail "Item already exists with this ID" }) := by
  constructor
  · intro db it h
    simp [create_item, h]
  · intro db it h
    simp [create_item, h]

/-- Witness for C10 at itemA: identical resubmission against store1, and
resubmission after a fresh create against the empty store. -/
theorem c10_witness :
    store1 itemA.id = some itemA ∧ emptyStore itemA.id = none ∧
      ((create_item store1 itemA).1 =
          { status := 400, body := .detail "Item already exists with this ID" } ∧
        (create_item (create_item emptyStore itemA).2 itemA).1 =
          { status := 400, body := .detail "Item already exists with this ID" }) :=
  ⟨rfl, rfl,
    c10_not_idempotent.1 store1 itemA rfl,
    c10_not_idempotent.2 emptyStore itemA rfl⟩

/-- Claim C9: each handler is a function of its input and the current
store only (it is one in this model), and it touches at most its own key:
a successful create adds exactly the key of the item and leaves every
other entry unchanged; update and delete change or remove exactly the
entry at the given key and leave every other entry unchanged; a failing
create, update or delete returns the store itself; get and the health
endpoint return the store itself. -/
theorem c9_frame :
    (∀ db : Store, ∀ it : Item,
        (db it.id = none →
          (create_item db it).2 it.id = some it ∧
            ∀ k, k ≠ it.id → (create_item db it).2 k = db k) ∧
        (∀ old, db it.id = some old → (create_item db it).2 = db)) ∧
      (∀ db : Store, ∀ id : Int, ∀ it : Item,
        (∀ old, db id = some old →
          (update_item db id it).2 id = some it ∧
            ∀ k, k ≠ id → (update_item db id it).2 k = db k) ∧
        (db id = none → (update_item db id it).2 = db)) ∧
      (∀ db : Store, ∀ id : Int,
        (∀ old, db id = some old →
          (delete_item db id).2 id = none ∧
            ∀ k, k ≠ id → (delete_item db id).2 k = db k) ∧
        (db id = none → (delete_item db id).2 = db)) ∧
      (∀ db : Store, ∀ id : Int, (get_item db id).2 = db) ∧
      (∀ db : Store, (read_root db).2 = db) := by
  refine ⟨?_, ?_, ?_, ?_, ?_⟩
  · intro db it
    constructor
    · intro h
      refine ⟨by simp [create_item, h], fun k hk => ?_⟩
      simp [create_item, h, hk]
    · intro old h
      simp [create_item, h]
  · intro db id it
    constructor
    · intro old h
      refine ⟨by simp [update_item, h], fun k hk => ?_⟩
      simp [update_item, h, hk]
    · intro h
      simp [update_item, h]
  · intro db id
    constructor
    · intro old h
      refine ⟨by simp [delete_item, h], fun k hk => ?_⟩
      simp [delete_item, h, hk]
    · intro h
      simp [delete_item, h]
  · intro db id
    cases h : db id <;> simp [get_item, h]
  · intro db
    rfl

/-- Witness for C9: the create frame at itemA against the empty store and
the delete frame at key 1 of the singleton store. -/
theorem c9_witness :
    emptyStore itemA.id = none ∧ store1 1 = some itemA ∧
      ((create_item emptyStore itemA).2 itemA.id = some itemA ∧
        (create_item emptyStore itemA).2 5 = emptyStore 5 ∧
        (delete_item store1 1).2 1 = none ∧
        (delete_item store1 1).2 5 = store1 5) := by
  have hc := (c9_frame.1 emptyStore itemA).1 rfl
  have hd := (c9_frame.2.2.1 store1 1).1 itemA rfl
  exact ⟨rfl, rfl, hc.1, hc.2 5 (by decide), hd.1, hd.2 5 (by decide)⟩

/-- Decoding succeeds exactly on the inputs satisfying the three field
constraints, and then yields the Item assembled from the input fields. -/
lemma decode_item_eq (id : Int) (name : String) (descr : Option String) :
    decode_item id name descr =
      if itemValid ⟨id, name, descr⟩ = true then some ⟨id, name, descr⟩
      else none := by
  cases descr <;>
    · simp only [decode_item, itemValid]
      split_ifs <;> simp_all <;> omega

/-- An Item produced by decoding satisfies the field constraints. -/
lemma decode_item_valid (id : Int) (name : String) (descr : Option String)
    (it : Item) (h : decode_item id name descr = some it) :
    itemValid it = true := by
  rw [decode_item_eq] at h
  split_ifs at h with hv
  cases h
  exact hv

/-- The get handler never changes the store. -/
lemma get_item_state (db : Store) (id : Int) : (get_item db id).2 = db := by
  cases h : db id <;> simp [get_item, h]

/-- Claim C7: validation accepts exactly the inputs satisfying the field
constraints; in particular a 2-character name is rejected, an
all-whitespace name is rejected whatever its length, a non-positive id is
rejected, a 201-character description is rejected, a 3-character name
with absent description is accepted, and a rejected input causes no store
mutation through the POST or PUT endpoint. -/
theorem c7_validation :
    (∀ id name descr, decode_item id name descr =
        if itemValid ⟨id, name, descr⟩ = true then some ⟨id, name, descr⟩
        else none) ∧
      (∀ id name descr, name.length = 2 →
        decode_item id name descr = none) ∧
      (∀ id name descr, (∀ c ∈ name.data, c.isWhitespace) →
        decode_item id name descr = none) ∧
      (∀ id name descr, id ≤ 0 → decode_item id name descr = none) ∧
      (∀ id name d, d.length = 201 →
        decode_item id name (some d) = none) ∧
      decode_item 3 "abc" none = some ⟨3, "abc", none⟩ ∧
      (∀ db id name descr, decode_item id name descr = none →
        (post_items db id name descr).2 = db ∧
          ∀ pid, (put_items db pid id name descr).2 = db) := by
  refine ⟨decode_item_eq, ?_, ?_, ?_, ?_, by decide, ?_⟩
  · intro id name descr h
    rw [decode_item_eq, if_neg]
    simp only [itemValid]
    intro hv
    simp at hv
    omega
  · intro id name descr h
    have hb : name_not_blank name = false := by
      simp only [name_not_blank, List.any_eq_false]
      intro c hc
      simpa using h c hc
    rw [decode_item_eq, if_neg]
    simp only [itemValid]
    intro hv
    simp [hb] at hv
  · intro id name descr h
    rw [decode_item_eq, if_neg]
    simp only [itemValid]
    intro hv
    simp at hv
    omega
  · intro id name d h
    rw [decode_item_eq, if_neg]
    simp only [itemValid]
    intro hv
    simp at hv
    omega
  · intro db id name descr h
    exact ⟨by simp [post_items, h], fun pid => by simp [put_items, h]⟩

set_option maxRecDepth 4000 in
/-- Witness for C7: rejection of a 2-character name, of an all-whitespace
name, of a non-positive id, of a 201-character description, and absence
of store mutation on a rejected input. -/
theorem c7_witness :
    String.length "ab" = 2 ∧ decode_item 1 "ab" none = none ∧
      (∀ c ∈ String.data "   ", c.isWhitespace) ∧
      decode_item 1 "   " none = none ∧
      (-1 : Int) ≤ 0 ∧ decode_item (-1) "abc" none = none ∧
      (String.mk (List.replicate 201 'a')).length = 201 ∧
      decode_item 1 "abc" (some (String.mk (List.replicate 201 'a'))) = none ∧
      decode_item 1 "ab" none = none ∧
      (post_items emptyStore 1 "ab" none).2 = emptyStore :=
  ⟨by decide, c7_validation.2.1 1 "ab" none (by decide),
    by decide, c7_validation.2.2.1 1 "   " none (by decide),
    by decide, c7_validation.2.2.2.1 (-1) "abc" none (by decide),
    by decide, c7_validation.2.2.2.2.1 1 "abc" _ (by decide),
    c7_validation.2.1 1 "ab" none (by decide),
    (c7_validation.2.2.2.2.2.2 emptyStore 1 "ab" none
      (c7_validation.2.1 1 "ab" none (by decide))).1⟩

/-- Every Item held in the store satisfies the field constraints. -/
def Inv (db : Store) : Prop :=
  ∀ k it, db k = some it → itemValid it = true

/-- Serving one request preserves the store invariant. -/
lemma step_inv (db : Store) (c : Cmd) (h : Inv db) : Inv (step db c) := by
  cases c with
  | post id name descr =>
    intro k it hk
    simp only [step, post_items] at hk
    cases hd : decode_item id name descr with
    | none =>
      rw [hd] at hk
      exact h k it hk
    | some it' =>
      rw [hd] at hk
      simp only [create_item] at hk
      by_cases hc : (db it'.id).isSome
      · rw [if_pos hc] at hk
        exact h k it hk
      · rw [if_neg hc] at hk
        by_cases hke : k = it'.id
        · simp [hke] at hk
          exact hk ▸ decode_item_valid id name descr it' hd
        · simp [hke] at hk
          exact h k it hk
  | get item_id =>
    intro k it hk
    simp only [step, get_item_state] at hk
    exact h k it hk
  | put item_id id name descr =>
    intro k it hk
    simp only [step, put_items] at hk
    cases hd : decode_item id name descr with
    | none =>
      rw [hd] at hk
      exact h k it hk
    | some it' =>
      rw [hd] at hk
      simp only [update_item] at hk
      by_cases hc : (db item_id).isNone
      · rw [if_pos hc] at hk
        exact h k it hk
      · rw [if_neg hc] at hk
        by_cases hke : k = item_id
        · simp [hke] at hk
          exact hk ▸ decode_item_valid id name descr it' hd
        · simp [hke] at hk
          exact h k it hk
  | del item_id =>
    intro k it hk
    simp only [step, delete_item] at hk
    by_cases hc : (db item_id).isNone
    · rw [if_pos hc] at hk
      exact h k it hk
    · rw [if_neg hc] at hk
      by_cases hke : k = item_id
      · simp [hke] at hk
      · simp [hke] at hk
        exact h k it hk
  | root =>
    intro k it hk
    exact h k it hk

/-- Folding requests from an invariant store keeps the invariant. -/
lemma foldl_inv (cs : List Cmd) (db : Store) (h : Inv db) :
    Inv (cs.foldl step db) := by
  induction cs generalizing db with
  | nil => exact h
  | cons c cs ih => exact ih _ (step_inv db c h)

/-- Claim C8: in every store reachable from the empty store by any
sequence of requests, every held Item satisfies all three field
constraints. -/
theorem c8_invariant (cs : List Cmd) (k : Int) (it : Item)
    (h : run cs k = some it) : itemValid it = true := by
  have hinv : Inv (run cs) :=
    foldl_inv cs emptyStore (fun k it hk => by cases hk)
  exact hinv k it h

/-- Witness for C8: after one successful POST, the stored Item is valid. -/
theorem c8_witness :
    run [Cmd.post 1 "abc" none] 1 = some ⟨1, "abc", none⟩ ∧
      itemValid ⟨1, "abc", none⟩ = true :=
  ⟨rfl, c8_invariant [Cmd.post 1 "abc" none] 1 ⟨1, "abc", none⟩ rfl⟩

end ItemApi
